import Mathlib

/-!
Verification of the dravr-embache CLI LLM gateway core.

Shallow embedding of the provider layer (src/src in the repository) and
the server-side resolver and multiplex engine (crates/embacle-server,
crates/embacle-mcp).  Pure functions of the Rust source are translated
into executable Lean definitions; effectful code (process spawning,
pipe reads, async tasks) is modelled by explicit environment records
describing the observable interactions, and by action lists recording
the side effects the code performs (child kill, task abort).
-/

namespace Embacle

/-! ## Data model: `CliRunnerType` (src/src/config.rs, lines 16-62) -/

/-- Supported CLI runner types (src/src/config.rs `enum CliRunnerType`). -/
inductive CliRunnerType where
  | ClaudeCode
  | CursorAgent
  | OpenCode
  | Copilot
deriving DecidableEq, Repr

/-- Rust `impl fmt::Display for CliRunnerType` (src/src/config.rs lines 53-62). -/
def CliRunnerType.display : CliRunnerType → String
  | .ClaudeCode => "claude_code"
  | .CursorAgent => "cursor_agent"
  | .OpenCode => "opencode"
  | .Copilot => "copilot"

/-! ## Error taxonomy (src/src/types.rs, lines 24-96) -/

/-- Categories of errors produced by CLI runners (src/src/types.rs
`enum ErrorKind`, lines 35-46).  The source enum has exactly these five
members: `Internal`, `ExternalService`, `BinaryNotFound`, `AuthFailure`,
`Config`. -/
inductive ErrorKind where
  | Internal
  | ExternalService
  | BinaryNotFound
  | AuthFailure
  | Config
deriving DecidableEq, Repr

/-- Structure `RunnerError` (src/src/types.rs lines 26-31). -/
structure RunnerError where
  kind : ErrorKind
  message : String
deriving DecidableEq, Repr

/-- Constructor `RunnerError::internal` (src/src/types.rs lines 50-55). -/
def RunnerError.internal (message : String) : RunnerError :=
  ⟨.Internal, message⟩

/-- Constructor `RunnerError::external_service` (src/src/types.rs lines 58-63):
message is `"{service}: {message}"`. -/
def RunnerError.external_service (service message : String) : RunnerError :=
  ⟨.ExternalService, service ++ ": " ++ message⟩

/-- Constructor `RunnerError::binary_not_found` (src/src/types.rs lines 66-71). -/
def RunnerError.binary_not_found (binary : String) : RunnerError :=
  ⟨.BinaryNotFound, "Binary not found: " ++ binary⟩

/-- Rust `impl fmt::Display for RunnerError` (src/src/types.rs lines 90-95):
`"{kind:?}: {message}"`. -/
def ErrorKind.debugStr : ErrorKind → String
  | .Internal => "Internal"
  | .ExternalService => "ExternalService"
  | .BinaryNotFound => "BinaryNotFound"
  | .AuthFailure => "AuthFailure"
  | .Config => "Config"

/-- Display rendering of a `RunnerError` (`"{kind:?}: {message}"`). -/
def RunnerError.render (e : RunnerError) : String :=
  e.kind.debugStr ++ ": " ++ e.message

/-! ## Provider-name parsing
(crates/embacle-mcp/src/runner/mod.rs `parse_runner_type`, lines 24-32, and
crates/embacle-server/src/provider_resolver.rs `resolve_model`, lines 27-57).

Strings are modelled as `List Char`; Rust `str::to_lowercase` is modelled
character-wise with `Char.toLower` (the two agree on ASCII input, which is
all the match arms compare against). -/

/-- Function `parse_runner_type` (crates/embacle-mcp/src/runner/mod.rs lines 24-32):
lowercase the input and match against the accepted naming variants. -/
def parse_runner_type (s : List Char) : Option CliRunnerType :=
  let l := s.map Char.toLower
  if l = "claude_code".toList ∨ l = "claude".toList ∨ l = "claudecode".toList then
    some .ClaudeCode
  else if l = "copilot".toList then
    some .Copilot
  else if l = "cursor_agent".toList ∨ l = "cursoragent".toList ∨ l = "cursor-agent".toList then
    some .CursorAgent
  else if l = "opencode".toList ∨ l = "open_code".toList then
    some .OpenCode
  else
    none

/-- Structure `ResolvedProvider` (crates/embacle-server/src/provider_resolver.rs
lines 12-18). -/
structure ResolvedProvider where
  runner_type : CliRunnerType
  model : Option (List Char)
deriving DecidableEq, Repr

/-- Rust `str::split_once(sep)`: split at the first occurrence of `sep`,
returning the parts before and after it; `none` when `sep` is absent. -/
def splitOnce (sep : Char) : List Char → Option (List Char × List Char)
  | [] => none
  | c :: rest =>
    if c = sep then some ([], rest)
    else
      match splitOnce sep rest with
      | some (a, b) => some (c :: a, b)
      | none => none

/-- Function `resolve_model` (crates/embacle-server/src/provider_resolver.rs
lines 27-57). -/
def resolve_model (model_str : List Char) (default_provider : CliRunnerType) :
    ResolvedProvider :=
  match splitOnce ':' model_str with
  | some (pre, post) =>
    match parse_runner_type pre with
    | some runner_type =>
        { runner_type, model := if post.isEmpty then none else some post }
    | none =>
        -- Colon present but prefix not recognized: bare model, default provider
        { runner_type := default_provider, model := some model_str }
  | none =>
    match parse_runner_type model_str with
    | some runner_type => { runner_type, model := none }
    | none => { runner_type := default_provider, model := some model_str }

/-! ## Bounded process runner (src/src/process.rs)

Pipe reads are modelled by the list of successful reads (`chunks`) the
stream delivers before end-of-stream; the read loop is instrumented with a
counter of `read` calls performed (the end-of-stream read, when the loop
reaches it, is counted), so that "stops reading at the cap" is observable. -/

/-- Default maximum output size, 10 MiB (src/src/process.rs line 17). -/
def DEFAULT_MAX_OUTPUT_BYTES : Nat := 10 * 1024 * 1024

/-- Structure `CliOutput` (src/src/process.rs lines 20-30); bytes as `List Nat`,
duration in milliseconds. -/
structure CliOutput where
  stdout : List Nat
  stderr : List Nat
  exit_code : Int
  duration : Nat
deriving DecidableEq, Repr

/-- The shared read loop of `read_stdout_capped` and `read_stderr_capped`
(src/src/process.rs lines 33-51 and 54-72; the two bodies are identical).
Each iteration reads one chunk, appends at most `limit - buf.len()` of it
(`saturating_sub` is `Nat` subtraction), and breaks as soon as
`buf.len() >= limit`; `Ok(0)`/`Err` (the `[]` case) also breaks.  Returns
the collected buffer and the number of reads performed. -/
def readCappedGo (buf : List Nat) (limit : Nat) :
    List (List Nat) → List Nat × Nat
  | [] => (buf, 1)
  | chunk :: rest =>
    let next := buf ++ chunk.take (limit - buf.length)
    if limit ≤ next.length then (next, 1)
    else
      let r := readCappedGo next limit rest
      (r.1, r.2 + 1)

/-- Function `read_stdout_capped` (src/src/process.rs lines 33-51): buffer collected
from an optional stdout stream, capped at `limit`. -/
def read_stdout_capped (stream : Option (List (List Nat))) (limit : Nat) :
    List Nat :=
  match stream with
  | none => []
  | some chunks => (readCappedGo [] limit chunks).1

/-- Function `read_stderr_capped` (src/src/process.rs lines 54-72): same loop on the
stderr stream. -/
def read_stderr_capped (stream : Option (List (List Nat))) (limit : Nat) :
    List Nat :=
  match stream with
  | none => []
  | some chunks => (readCappedGo [] limit chunks).1

/-- Modelled from the spec (§4.3 and §9 "Output caps"): the drainer the
spec describes reads into a buffer capped at `limit` and, once the cap is
reached, CONTINUES reading and discarding until end-of-stream.  Defined
only for comparison against `readCappedGo`, which is the code's loop. -/
def readDiscardSpecGo (buf : List Nat) (limit : Nat) :
    List (List Nat) → List Nat × Nat
  | [] => (buf, 1)
  | chunk :: rest =>
    let next := buf ++ chunk.take (limit - buf.length)
    let r := readDiscardSpecGo next limit rest
    (r.1, r.2 + 1)

/-- Outcome of `tokio::time::timeout(timeout, child.wait())` in
`run_cli_command`. -/
inductive WaitOutcome where
  | completed (code : Option Int)
  | waitFailed (msg : String)
  | timedOut
deriving DecidableEq, Repr

/-- Observable side effects of `run_cli_command`. -/
inductive ProcAction where
  | killChild
deriving DecidableEq, Repr

/-- Environment of one `run_cli_command` invocation: spawn outcome, the
chunk sequences the two pipes deliver, the wait outcome, and elapsed wall
time in milliseconds. -/
structure ExecEnv where
  spawn_result : Except String Unit
  stdoutChunks : Option (List (List Nat))
  stderrChunks : Option (List (List Nat))
  wait : WaitOutcome
  elapsed : Nat
deriving Repr

/-- Rust `Debug` rendering of a whole-second `Duration` (the `{timeout:?}`
interpolation in src/src/process.rs line 139). -/
def durationDebug (secs : Nat) : String := toString secs ++ "s"

/-- Function `run_cli_command` (src/src/process.rs lines 86-143).  A zero
`max_output_bytes` selects the 10 MiB default (lines 91-95).  On timeout
the child is killed and an error built by `RunnerError::external_service`
is returned (lines 134-141); note the source's `ErrorKind` has no
`Timeout` member. -/
def run_cli_command (env : ExecEnv) (timeoutSecs : Nat)
    (max_output_bytes : Nat) : Except RunnerError CliOutput × List ProcAction :=
  let effective_max :=
    if max_output_bytes = 0 then DEFAULT_MAX_OUTPUT_BYTES else max_output_bytes
  match env.spawn_result with
  | .error e =>
      (.error (RunnerError.internal ("Failed to spawn CLI process: " ++ e)), [])
  | .ok _ =>
    match env.wait with
    | .completed code =>
        (.ok { stdout := read_stdout_capped env.stdoutChunks effective_max,
               stderr := read_stderr_capped env.stderrChunks effective_max,
               exit_code := code.getD (-1),
               duration := env.elapsed }, [])
    | .waitFailed e =>
        (.error (RunnerError.internal ("Failed to wait for CLI process: " ++ e)), [])
    | .timedOut =>
        (.error (RunnerError.external_service "cli-runner"
            ("CLI command timed out after " ++ durationDebug timeoutSecs)),
         [.killChild])

/-! ## Messages and prompt assembly
(src/src/types.rs lines 174-234 and src/src/prompt.rs) -/

/-- Role of a message (src/src/types.rs `enum MessageRole`, lines 177-184). -/
inductive MessageRole where
  | System
  | User
  | Assistant
deriving DecidableEq, Repr

/-- Structure `ChatMessage` (src/src/types.rs lines 199-205). -/
structure ChatMessage where
  role : MessageRole
  content : String
deriving DecidableEq, Repr

/-- Role label used by `build_prompt` (src/src/prompt.rs lines 20-24). -/
def roleLabel : MessageRole → String
  | .System => "[system]"
  | .User => "[user]"
  | .Assistant => "[assistant]"

/-- Function `build_prompt` (src/src/prompt.rs lines 17-35): each message
rendered as `"[role]\ncontent"`, blocks joined by blank lines. -/
def build_prompt (messages : List ChatMessage) : String :=
  String.intercalate "\n\n"
    (messages.map (fun msg => roleLabel msg.role ++ "\n" ++ msg.content))

/-- Role label used inside `build_user_prompt` (src/src/prompt.rs lines
64-69).  The `System` arm is `unreachable!()` in the source because the list
has been filtered to non-system messages; it is modelled as `""` and proved
never to be selected. -/
def userLabel : MessageRole → String
  | .User => "[user]"
  | .Assistant => "[assistant]"
  | .System => ""

/-- Function `build_user_prompt` (src/src/prompt.rs lines 57-80): prompt
built from the non-system messages only. -/
def build_user_prompt (messages : List ChatMessage) : String :=
  let non_system := messages.filter (fun m => decide (m.role ≠ MessageRole.System))
  String.intercalate "\n\n"
    (non_system.map (fun msg => userLabel msg.role ++ "\n" ++ msg.content))

/-- Function `extract_system_message` (src/src/prompt.rs lines 39-50):
content of the first system message, if any. -/
def extract_system_message (messages : List ChatMessage) : Option String :=
  (messages.find? (fun m => decide (m.role = MessageRole.System))).map
    (fun m => m.content)

/-- Structure `ChatRequest` (src/src/types.rs lines 242-253).  The `f32`
temperature is carried opaquely (it is never interpreted by the code paths
embedded here); `Rat` stands in for it. -/
structure ChatRequest where
  messages : List ChatMessage
  model : Option String
  temperature : Option Rat
  max_tokens : Option Nat
  stream : Bool
deriving DecidableEq, Repr

/-- Structure `TokenUsage` (src/src/types.rs lines 311-319). -/
structure TokenUsage where
  prompt_tokens : Nat
  completion_tokens : Nat
  total_tokens : Nat
deriving DecidableEq, Repr

/-- Structure `ChatResponse` (src/src/types.rs lines 298-308). -/
structure ChatResponse where
  content : String
  model : String
  usage : Option TokenUsage
  finish_reason : Option String
deriving DecidableEq, Repr

/-! ## Runner configuration and per-adapter command construction
(src/src/config.rs lines 64-131, src/src/claude_code.rs, src/src/copilot.rs,
src/src/cursor_agent.rs, src/src/opencode.rs)

Commands are modelled by their argument lists (the `Vec<String>` a
`tokio::process::Command` accumulates).  Sandbox application
(`apply_sandbox`) and environment-variable injection touch the command's
environment and working directory, not its argument list, so they do not
appear here. -/

/-- Structure `RunnerConfig` (src/src/config.rs lines 64-79); paths as
strings, timeout in seconds. -/
structure RunnerConfig where
  binary_path : String
  model : Option String
  timeoutSecs : Nat
  extra_args : List String
  allowed_env_keys : List String
  working_directory : Option String
deriving DecidableEq, Repr

/-- In-memory session map (`HashMap<String, String>` behind a mutex in each
adapter), modelled as an association list; insertion prepends, lookup takes
the first match. -/
def sessionLookup (sessions : List (String × String)) (key : String) :
    Option String :=
  (sessions.find? (fun kv => kv.1 == key)).map (fun kv => kv.2)

/-- Session insertion (`set_session`): `sessions.insert(key, session_id)`. -/
def sessionInsert (sessions : List (String × String)) (key sid : String) :
    List (String × String) :=
  (key, sid) :: sessions

/-- Resume-argument suffix appended by `complete`/`complete_stream` when the
request carries a model and a session is cached under it
(src/src/claude_code.rs lines 228-233, src/src/cursor_agent.rs lines
203-208, src/src/opencode.rs lines 188-193).  `flag` is `"--resume"` for
Claude Code and Cursor Agent, `"--session"` for OpenCode. -/
def resumeArgs (sessions : List (String × String)) (reqModel : Option String)
    (flag : String) : List String :=
  match reqModel with
  | some m =>
    match sessionLookup sessions m with
    | some sid => [flag, sid]
    | none => []
  | none => []

/-- Default model for Claude Code (src/src/claude_code.rs line 44). -/
def ClaudeCodeRunner.DEFAULT_MODEL : String := "opus"

/-- Field `default_model` set by `ClaudeCodeRunner::new`
(src/src/claude_code.rs lines 82-85). -/
def ClaudeCodeRunner.default_model (config : RunnerConfig) : String :=
  config.model.getD ClaudeCodeRunner.DEFAULT_MODEL

/-- Argument list built by `ClaudeCodeRunner::build_command`
(src/src/claude_code.rs lines 105-158).  `max_tokens` only injects an
environment variable (line 154-156) and leaves the argument list unchanged,
so it is not a parameter here. -/
def ClaudeCodeRunner.buildArgs (config : RunnerConfig) (prompt : String)
    (system_prompt : Option String) (output_format : String) : List String :=
  ["-p", prompt, "--output-format", output_format]
  ++ (if output_format = "stream-json" then ["--verbose"] else [])
  ++ (match system_prompt with
      | some sys => ["--system-prompt", sys]
      | none => [])
  ++ ["--model", config.model.getD (ClaudeCodeRunner.default_model config)]
  ++ ["--strict-mcp-config", "\x7b\x7d"]
  ++ config.extra_args

/-- Argument list of the command `ClaudeCodeRunner::complete` spawns
(src/src/claude_code.rs lines 222-247): build with split assembly and
`"json"` output, then append the resume suffix keyed by the request's
model. -/
def ClaudeCodeRunner.completeArgs (config : RunnerConfig)
    (sessions : List (String × String)) (request : ChatRequest) : List String :=
  ClaudeCodeRunner.buildArgs config (build_user_prompt request.messages)
    (extract_system_message request.messages) "json"
  ++ resumeArgs sessions request.model "--resume"

/-- Default model for Cursor Agent (src/src/cursor_agent.rs line 61). -/
def CursorAgentRunner.DEFAULT_MODEL : String := "sonnet-4"

/-- Field `default_model` set by `CursorAgentRunner::new`
(src/src/cursor_agent.rs lines 82-85). -/
def CursorAgentRunner.default_model (config : RunnerConfig) : String :=
  config.model.getD CursorAgentRunner.DEFAULT_MODEL

/-- Argument list built by `CursorAgentRunner::build_command`
(src/src/cursor_agent.rs lines 102-128). -/
def CursorAgentRunner.buildArgs (config : RunnerConfig) (prompt : String)
    (output_format : String) : List String :=
  ["-p", prompt, "--output-format", output_format, "--approve-mcps"]
  ++ ["--model", config.model.getD (CursorAgentRunner.default_model config)]
  ++ config.extra_args

/-- Prompt handed to the CLI by `CursorAgentRunner::complete`
(src/src/cursor_agent.rs line 200): built with `build_user_prompt`. -/
def CursorAgentRunner.completePrompt (request : ChatRequest) : String :=
  build_user_prompt request.messages

/-- Prompt handed to the CLI by `CursorAgentRunner::complete_stream`
(src/src/cursor_agent.rs line 246): built with `build_user_prompt`. -/
def CursorAgentRunner.completeStreamPrompt (request : ChatRequest) : String :=
  build_user_prompt request.messages

/-- Argument list of the command `CursorAgentRunner::complete` spawns
(src/src/cursor_agent.rs lines 191-210). -/
def CursorAgentRunner.completeArgs (config : RunnerConfig)
    (sessions : List (String × String)) (request : ChatRequest) : List String :=
  CursorAgentRunner.buildArgs config (build_user_prompt request.messages) "json"
  ++ resumeArgs sessions request.model "--resume"

/-- Default model for Copilot (src/src/copilot.rs line 39). -/
def CopilotRunner.DEFAULT_MODEL : String := "claude-opus-4.6"

/-- Field `default_model` set by `CopilotRunner::new`
(src/src/copilot.rs lines 118-122). -/
def CopilotRunner.default_model (config : RunnerConfig) : String :=
  config.model.getD CopilotRunner.DEFAULT_MODEL

/-- Argument list built by `CopilotRunner::build_command`
(src/src/copilot.rs lines 133-178). -/
def CopilotRunner.buildArgs (config : RunnerConfig) (prompt : String)
    (silent : Bool) : List String :=
  ["-p", prompt]
  ++ ["--model", config.model.getD (CopilotRunner.default_model config)]
  ++ ["--allow-all-tools", "--disable-builtin-mcps",
      "--no-custom-instructions", "--no-ask-user", "--no-color"]
  ++ (if silent then ["-s"] else [])
  ++ config.extra_args

/-- Argument list of the command `CopilotRunner::complete` spawns
(src/src/copilot.rs lines 224-236): combined-assembly prompt, silent
mode; Copilot keeps no sessions, so the request's model is unused. -/
def CopilotRunner.completeArgs (config : RunnerConfig)
    (request : ChatRequest) : List String :=
  CopilotRunner.buildArgs config (build_prompt request.messages) true

/-- Default model for OpenCode (src/src/opencode.rs line 54). -/
def OpenCodeRunner.DEFAULT_MODEL : String := "anthropic/claude-sonnet-4"

/-- Field `default_model` set by `OpenCodeRunner::new`
(src/src/opencode.rs lines 79-82). -/
def OpenCodeRunner.default_model (config : RunnerConfig) : String :=
  config.model.getD OpenCodeRunner.DEFAULT_MODEL

/-- Argument list built by `OpenCodeRunner::build_command`
(src/src/opencode.rs lines 99-122). -/
def OpenCodeRunner.buildArgs (config : RunnerConfig) (prompt : String) :
    List String :=
  ["run", prompt, "--format", "json"]
  ++ ["--model", config.model.getD (OpenCodeRunner.default_model config)]
  ++ config.extra_args

/-- Argument list of the command `OpenCodeRunner::complete` spawns
(src/src/opencode.rs lines 184-195). -/
def OpenCodeRunner.completeArgs (config : RunnerConfig)
    (sessions : List (String × String)) (request : ChatRequest) : List String :=
  OpenCodeRunner.buildArgs config (build_prompt request.messages)
  ++ resumeArgs sessions request.model "--session"

/-! ## Claude Code JSON response parsing (src/src/claude_code.rs lines 49-64
and 162-196)

The serde layer is modelled by a small JSON value type and a decoder that
follows the derived `Deserialize` impls of `ClaudeResponse`/`ClaudeUsage`:
a missing or `null` field decodes an `Option` field to `None`,
`#[serde(default)] is_error` decodes a missing flag to `false`, and a
type mismatch fails the whole parse.  `u32` token counts are naturals
checked against `2^32`, and their sum wraps modulo `2^32`. -/

/-- JSON values (the subset serde_json delivers for these bodies; numbers
restricted to naturals, which covers the `u32` fields decoded here). -/
inductive Json where
  | null
  | bool (b : Bool)
  | num (n : Nat)
  | str (s : String)
  | arr (xs : List Json)
  | obj (fields : List (String × Json))

/-- Object field lookup; `none` on non-objects and missing keys. -/
def Json.getField : Json → String → Option Json
  | .obj fields, key => (fields.find? (fun kv => kv.1 == key)).map (fun kv => kv.2)
  | _, _ => none

/-- Decode an `Option<String>` field from a possibly-absent JSON value. -/
def decodeOptString : Option Json → Option (Option String)
  | none => some none
  | some .null => some none
  | some (.str s) => some (some s)
  | some _ => none

/-- Decode an `Option<u32>` field from a possibly-absent JSON value. -/
def decodeOptU32 : Option Json → Option (Option Nat)
  | none => some none
  | some .null => some none
  | some (.num n) => if n < 2 ^ 32 then some (some n) else none
  | some _ => none

/-- Decode a `#[serde(default)] bool` field: missing means `false`. -/
def decodeBoolDefault : Option Json → Option Bool
  | none => some false
  | some (.bool b) => some b
  | some _ => none

/-- Structure `ClaudeUsage` (src/src/claude_code.rs lines 60-64). -/
structure ClaudeUsage where
  input_tokens : Option Nat
  output_tokens : Option Nat
deriving DecidableEq, Repr

/-- Structure `ClaudeResponse` (src/src/claude_code.rs lines 50-57). -/
structure ClaudeResponse where
  result : Option String
  is_error : Bool
  session_id : Option String
  usage : Option ClaudeUsage
deriving DecidableEq, Repr

/-- Derived deserializer for `ClaudeUsage`. -/
def decodeClaudeUsage (j : Json) : Option ClaudeUsage :=
  match j with
  | .obj _ =>
    match decodeOptU32 (j.getField "input_tokens"),
          decodeOptU32 (j.getField "output_tokens") with
    | some i, some o => some ⟨i, o⟩
    | _, _ => none
  | _ => none

/-- Decode the `Option<ClaudeUsage>` field. -/
def decodeOptUsage : Option Json → Option (Option ClaudeUsage)
  | none => some none
  | some .null => some none
  | some j => (decodeClaudeUsage j).map some

/-- Derived deserializer for `ClaudeResponse`. -/
def decodeClaudeResponse (j : Json) : Option ClaudeResponse :=
  match j with
  | .obj _ =>
    match decodeOptString (j.getField "result"),
          decodeBoolDefault (j.getField "is_error"),
          decodeOptString (j.getField "session_id"),
          decodeOptUsage (j.getField "usage") with
    | some r, some e, some sid, some u => some ⟨r, e, sid, u⟩
    | _, _, _, _ => none
  | _ => none

/-- Function `ClaudeCodeRunner::parse_response` (src/src/claude_code.rs
lines 162-196), from the parsed JSON value (the UTF-8 and serde text layers
are abstracted into the `Json` input; their failure arms both produce
`Internal` errors, modelled by the `none` decode arm). -/
def ClaudeCodeRunner.parse_response (j : Json) :
    Except RunnerError (ChatResponse × Option String) :=
  match decodeClaudeResponse j with
  | none => .error (RunnerError.internal "Failed to parse Claude Code JSON response")
  | some parsed =>
    if parsed.is_error then
      .error (RunnerError.external_service "claude-code"
        (parsed.result.getD "Unknown error from Claude Code"))
    else
      .ok ({ content := parsed.result.getD "",
             model := "claude-code",
             usage := parsed.usage.map (fun u =>
               { prompt_tokens := u.input_tokens.getD 0,
                 completion_tokens := u.output_tokens.getD 0,
                 total_tokens :=
                   (u.input_tokens.getD 0 + u.output_tokens.getD 0) % 2 ^ 32 }),
             finish_reason := some "stop" }, parsed.session_id)

/-- Session-caching step of `ClaudeCodeRunner::complete`
(src/src/claude_code.rs lines 267-273): after a successful parse, if the
body carried a `session_id` and the request supplied a model, cache the id
under that model key. -/
def cacheSessionAfterParse (sessions : List (String × String))
    (requestModel : Option String) (session_id : Option String) :
    List (String × String) :=
  match session_id with
  | some sid =>
    match requestModel with
    | some m => sessionInsert sessions m sid
    | none => sessions
  | none => sessions

/-- The concrete Claude Code success body of spec scenario 5. -/
def claudeHelloBody : Json :=
  .obj [("result", .str "Hello world"), ("is_error", .bool false),
        ("session_id", .str "abc123"),
        ("usage", .obj [("input_tokens", .num 10), ("output_tokens", .num 5)])]

/-- The concrete Claude Code error body of spec scenario 6. -/
def claudeRateLimitedBody : Json :=
  .obj [("result", .str "rate limited"), ("is_error", .bool true)]

/-! ## Substring helpers (for "message mentions X" statements) -/

/-- Boolean list-prefix test. -/
def isPrefixB : List Char → List Char → Bool
  | [], _ => true
  | _ :: _, [] => false
  | a :: as, b :: bs => a == b && isPrefixB as bs

/-- Boolean contiguous-sublist test. -/
def hasInfixB (needle : List Char) : List Char → Bool
  | [] => isPrefixB needle []
  | c :: rest => isPrefixB needle (c :: rest) || hasInfixB needle rest

/-- Whether `pat` occurs contiguously inside `hay`. -/
def strContainsSub (hay pat : String) : Bool :=
  hasInfixB pat.data hay.data

/-! ## Multiplex engine (crates/embacle-server/src/runner/multiplex.rs)

Concurrency is modelled by giving each task index its own dispatch
environment; `execute` collects the per-task results by awaiting the
spawned handles in spawn order (source lines 74-86), so outcomes are in
input order regardless of completion order.  `dispatch_single` is total
(it catches both failure sources, lines 105-136), so the defensive
join-error arm of `execute` (lines 78-84), reachable only through a task
panic, has no counterpart in the model. -/

/-- Structure `ProviderResponse` (crates/embacle-server/src/runner/
multiplex.rs lines 25-37). -/
structure ProviderResponse where
  provider : String
  content : Option String
  model : Option String
  error : Option String
  duration_ms : Nat
deriving DecidableEq, Repr

/-- Structure `MultiplexResult` (crates/embacle-server/src/runner/
multiplex.rs lines 16-22). -/
structure MultiplexResult where
  responses : List ProviderResponse
  summary : String
deriving DecidableEq, Repr

/-- Environment of one multiplex task: outcome of `state.get_runner`, the
outcome of `runner.complete` (relevant only when the former succeeds), and
the elapsed milliseconds observed at each return point. -/
structure DispatchEnv where
  get_runner : Except RunnerError Unit
  complete : Except RunnerError ChatResponse
  elapsedAfterGet : Nat
  elapsedAfterComplete : Nat

/-- Function `dispatch_single` (crates/embacle-server/src/runner/
multiplex.rs lines 94-137): failure to obtain the runner or to complete is
recorded in the `error` field; success records content and model.  The
`provider` field is always `provider.to_string()`. -/
def dispatch_single (provider : CliRunnerType) (env : DispatchEnv) :
    ProviderResponse :=
  match env.get_runner with
  | .error e =>
      ⟨provider.display, none, none, some e.render, env.elapsedAfterGet⟩
  | .ok _ =>
    match env.complete with
    | .ok response =>
        ⟨provider.display, some response.content, some response.model, none,
          env.elapsedAfterComplete⟩
    | .error e =>
        ⟨provider.display, none, none, some e.render, env.elapsedAfterComplete⟩

/-- Function `build_summary` (crates/embacle-server/src/runner/multiplex.rs
lines 140-145). -/
def build_summary (responses : List ProviderResponse) : String :=
  let total := responses.length
  let succeeded := (responses.filter (fun r => r.content.isSome)).length
  let failed := total - succeeded
  toString succeeded ++ " succeeded, " ++ toString failed ++ " failed out of "
    ++ toString total ++ " providers"

/-- Function `MultiplexEngine::execute` (crates/embacle-server/src/runner/
multiplex.rs lines 56-90): spawn one task per provider in input order,
collect results in the same order, and build the summary. -/
def MultiplexEngine.execute (providers : List CliRunnerType)
    (env : Nat → DispatchEnv) : MultiplexResult :=
  let responses := providers.enum.map (fun ip => dispatch_single ip.2 (env ip.1))
  ⟨responses, build_summary responses⟩

/-! ## Binary resolver (src/src/discovery.rs lines 69-83)

The filesystem and the `which` crate are environment parameters:
`path_exists` answers `Path::exists`, and `which_result` is the outcome of
`which::which(name)` (its error rendered as a string). -/

/-- Function `resolve_binary` (src/src/discovery.rs lines 69-83). -/
def resolve_binary (name : String) (env_override : Option String)
    (path_exists : String → Bool) (which_result : Except String String) :
    Except RunnerError String :=
  match env_override with
  | some override_path =>
    if path_exists override_path then .ok override_path
    else
      .error (RunnerError.internal
        ("Environment override points to non-existent path: " ++ override_path))
  | none =>
    match which_result with
    | .ok p => .ok p
    | .error e =>
        .error (RunnerError.internal
          ("Binary '" ++ name ++ "' not found on PATH: " ++ e))

/-! ## Guarded stream (src/src/stream.rs)

The stream's ownership state is the pair of optional handles; child and
task handles are identified by numeric ids.  `poll_next` (lines 55-57)
delegates to the inner stream and leaves both handles in place; `drop`
(lines 60-69) is modelled as the list of lifecycle actions it performs. -/

/-- Ownership state of a `GuardedStream` (src/src/stream.rs lines 27-31). -/
structure GuardedStream where
  child : Option Nat
  stderr_task : Option Nat
deriving DecidableEq, Repr

/-- Constructor `GuardedStream::new` (src/src/stream.rs lines 39-49): takes
ownership of the child and the stderr-drain task. -/
def GuardedStream.new (child : Nat) (stderr_task : Nat) : GuardedStream :=
  ⟨some child, some stderr_task⟩

/-- Lifecycle actions performed by the `Drop` impl. -/
inductive DropAction where
  | startKill (child : Nat)
  | abortTask (task : Nat)
deriving DecidableEq, Repr

/-- Function `poll_next` of the `Stream` impl (src/src/stream.rs lines
55-57): polls the inner stream only; the guard fields are untouched. -/
def GuardedStream.poll_next (g : GuardedStream) : GuardedStream := g

/-- Rust `impl Drop for GuardedStream` (src/src/stream.rs lines 60-69):
`start_kill` the owned child, if any, and `abort` the stderr-drain task,
if any. -/
def GuardedStream.drop (g : GuardedStream) : List DropAction :=
  (match g.child with
   | some c => [.startKill c]
   | none => [])
  ++ (match g.stderr_task with
      | some t => [.abortTask t]
      | none => [])

/-! # Theorems

The remainder of the file states and proves the claims; all embedding
definitions are above. -/

/-! ### Lemmas about `splitOnce` -/

theorem splitOnce_eq_none_of_not_mem {sep : Char} :
    ∀ {s : List Char}, sep ∉ s → splitOnce sep s = none := by
  intro s h
  induction s with
  | nil => rfl
  | cons c rest ih =>
    have hc : ¬c = sep := fun hcs => h (hcs ▸ List.mem_cons_self c rest)
    have hrest : sep ∉ rest := fun hm => h (List.mem_cons_of_mem c hm)
    simp only [splitOnce, if_neg hc, ih hrest]

theorem splitOnce_append {sep : Char} {p m : List Char} (h : sep ∉ p) :
    splitOnce sep (p ++ sep :: m) = some (p, m) := by
  induction p with
  | nil => simp [splitOnce]
  | cons c rest ih =>
    have hc : ¬c = sep := fun hcs => h (hcs ▸ List.mem_cons_self c rest)
    have hrest : sep ∉ rest := fun hm => h (List.mem_cons_of_mem c hm)
    simp only [List.cons_append, splitOnce, if_neg hc, List.append_eq, ih hrest]

/-- C1: For every model string `s` and default provider `d`, address
resolution (`resolve_model`) implements the parsing table: `"p:m"` with a
known (case-insensitive, alias-accepting) prefix and non-empty `m` gives
`{p, Some m}`; `"p:"` with known `p` gives `{p, None}`; a colon with an
unknown prefix gives `{d, Some s}` with `s` the entire input; a bare known
provider name gives `{provider, None}`; anything else gives `{d, Some s}`.
The final conjunct checks the documented aliases `claude`, `cursor-agent`,
`cursoragent`, `open_code` and case-insensitivity (`CLAUDE`). -/
theorem resolve_model_implements_parsing_table (d : CliRunnerType) :
    (∀ (p m : List Char) (r : CliRunnerType), ':' ∉ p →
        parse_runner_type p = some r → m ≠ [] →
        resolve_model (p ++ ':' :: m) d = ⟨r, some m⟩)
  ∧ (∀ (p : List Char) (r : CliRunnerType), ':' ∉ p →
        parse_runner_type p = some r →
        resolve_model (p ++ [':']) d = ⟨r, none⟩)
  ∧ (∀ (p m : List Char), ':' ∉ p → parse_runner_type p = none →
        resolve_model (p ++ ':' :: m) d = ⟨d, some (p ++ ':' :: m)⟩)
  ∧ (∀ (s : List Char) (r : CliRunnerType), ':' ∉ s →
        parse_runner_type s = some r →
        resolve_model s d = ⟨r, none⟩)
  ∧ (∀ (s : List Char), ':' ∉ s → parse_runner_type s = none →
        resolve_model s d = ⟨d, some s⟩)
  ∧ parse_runner_type "claude".toList = some .ClaudeCode
  ∧ parse_runner_type "CLAUDE".toList = some .ClaudeCode
  ∧ parse_runner_type "cursor-agent".toList = some .CursorAgent
  ∧ parse_runner_type "cursoragent".toList = some .CursorAgent
  ∧ parse_runner_type "open_code".toList = some .OpenCode := by
  refine ⟨?_, ?_, ?_, ?_, ?_, by decide, by decide, by decide, by decide, by decide⟩
  · intro p m r hp hparse hm
    simp only [resolve_model, splitOnce_append hp, hparse]
    simp [List.isEmpty_iff, hm]
  · intro p r hp hparse
    have h : (p ++ [':']) = p ++ ':' :: ([] : List Char) := rfl
    rw [h]
    simp [resolve_model, splitOnce_append hp, hparse]
  · intro p m hp hparse
    simp [resolve_model, splitOnce_append hp, hparse]
  · intro s r hs hparse
    simp [resolve_model, splitOnce_eq_none_of_not_mem hs, hparse]
  · intro s hs hparse
    simp [resolve_model, splitOnce_eq_none_of_not_mem hs, hparse]

/-- Witness for C1: concrete instances of the table, exercising the
`"provider:model"` clause and the unknown-prefix clause (spec scenarios 1
and 3). -/
theorem resolve_model_implements_parsing_table_witness :
    resolve_model "copilot:gpt-4o".toList .ClaudeCode
        = ⟨.Copilot, some "gpt-4o".toList⟩
  ∧ resolve_model "unknown:something".toList .Copilot
        = ⟨.Copilot, some "unknown:something".toList⟩ := by
  constructor
  · have h : "copilot:gpt-4o".toList = "copilot".toList ++ ':' :: "gpt-4o".toList := by
      decide
    rw [h]
    exact (resolve_model_implements_parsing_table .ClaudeCode).1 "copilot".toList
      "gpt-4o".toList .Copilot (by decide) (by decide) (by decide)
  · have h : "unknown:something".toList
        = "unknown".toList ++ ':' :: "something".toList := by decide
    rw [h]
    exact (resolve_model_implements_parsing_table .Copilot).2.2.1 "unknown".toList
      "something".toList (by decide) (by decide)

/-! ### Lemmas about the capped read loop -/

theorem readCappedGo_length_le {limit : Nat} :
    ∀ (chunks : List (List Nat)) (buf : List Nat), buf.length ≤ limit →
      (readCappedGo buf limit chunks).1.length ≤ limit := by
  intro chunks
  induction chunks with
  | nil => intro buf h; exact h
  | cons chunk rest ih =>
    intro buf h
    have hnext : (buf ++ chunk.take (limit - buf.length)).length ≤ limit := by
      simp only [List.length_append, List.length_take]
      omega
    simp only [readCappedGo]
    split
    · exact hnext
    · exact ih _ hnext

theorem read_stdout_capped_length_le (stream : Option (List (List Nat)))
    (limit : Nat) : (read_stdout_capped stream limit).length ≤ limit := by
  cases stream with
  | none => simp [read_stdout_capped]
  | some chunks =>
      exact readCappedGo_length_le chunks [] (Nat.zero_le _)

theorem read_stderr_capped_length_le (stream : Option (List (List Nat)))
    (limit : Nat) : (read_stderr_capped stream limit).length ≤ limit := by
  cases stream with
  | none => simp [read_stderr_capped]
  | some chunks =>
      exact readCappedGo_length_le chunks [] (Nat.zero_le _)

/-- C2 counterexample: a bounded-runner invocation whose child does not exit
within the timeout does NOT return an error of kind `Timeout` — the source
`ErrorKind` enum (src/src/types.rs lines 35-46, embedded verbatim above as
`ErrorKind`) has no `Timeout` member at all, and the timeout arm of
`run_cli_command` (src/src/process.rs lines 134-141) builds its error with
`RunnerError::external_service`.  At this concrete timed-out execution the
returned error's kind is `ExternalService`. -/
theorem run_cli_command_timeout_kind_counterexample :
    run_cli_command ⟨.ok (), some [], some [], .timedOut, 6000⟩ 5 0
      = (.error ⟨.ExternalService, "cli-runner: CLI command timed out after 5s"⟩,
         [.killChild]) := by
  rfl

/-- C2 (amended): for every bounded-runner invocation whose child does not
exit within the wall-clock timeout, `run_cli_command` kills the child and
returns an error of kind `ExternalService` (the error taxonomy has no
`Timeout` member) whose message reports the timeout budget. -/
theorem run_cli_command_timeout_behaviour
    (env : ExecEnv) (timeoutSecs max_output_bytes : Nat)
    (hspawn : env.spawn_result = .ok ()) (hwait : env.wait = .timedOut) :
    run_cli_command env timeoutSecs max_output_bytes
      = (.error (RunnerError.external_service "cli-runner"
            ("CLI command timed out after " ++ durationDebug timeoutSecs)),
         [.killChild])
    ∧ (RunnerError.external_service "cli-runner"
        ("CLI command timed out after " ++ durationDebug timeoutSecs)).kind
      = .ExternalService := by
  refine ⟨?_, rfl⟩
  simp only [run_cli_command, hspawn, hwait]

/-- Witness for C2 (amended) at a concrete timed-out execution with the
default 120 s timeout. -/
theorem run_cli_command_timeout_behaviour_witness :
    run_cli_command ⟨.ok (), none, none, .timedOut, 121000⟩ 120 0
      = (.error (RunnerError.external_service "cli-runner"
            ("CLI command timed out after " ++ durationDebug 120)),
         [.killChild])
    ∧ (RunnerError.external_service "cli-runner"
        ("CLI command timed out after " ++ durationDebug 120)).kind
      = .ExternalService :=
  run_cli_command_timeout_behaviour ⟨.ok (), none, none, .timedOut, 121000⟩
    120 0 rfl rfl

/-- C3: for every bounded-runner invocation with byte cap `C` (where `C = 0`
means the 10 MiB component default is used), the captured stdout and stderr
buffers in the returned `CliOutput` each have length at most the effective
cap. -/
theorem run_cli_command_output_bounded
    (env : ExecEnv) (timeoutSecs C : Nat) (out : CliOutput)
    (h : (run_cli_command env timeoutSecs C).1 = .ok out) :
    out.stdout.length ≤ (if C = 0 then DEFAULT_MAX_OUTPUT_BYTES else C)
    ∧ out.stderr.length ≤ (if C = 0 then DEFAULT_MAX_OUTPUT_BYTES else C) := by
  rcases env with ⟨sr, so, se, w, el⟩
  cases sr with
  | error e => simp [run_cli_command] at h
  | ok u =>
    cases w with
    | completed code =>
      simp only [run_cli_command] at h
      injection h with h
      subst h
      exact ⟨read_stdout_capped_length_le so _, read_stderr_capped_length_le se _⟩
    | waitFailed m => simp [run_cli_command] at h
    | timedOut => simp [run_cli_command] at h

/-- Witness for C3: a run with cap 3 whose child writes 5 stdout bytes and
6 stderr bytes; both captured buffers have length 3 ≤ 3. -/
theorem run_cli_command_output_bounded_witness :
    (⟨[1, 2, 3], [9, 9, 9], 0, 10⟩ : CliOutput).stdout.length
      ≤ (if 3 = 0 then DEFAULT_MAX_OUTPUT_BYTES else 3)
    ∧ (⟨[1, 2, 3], [9, 9, 9], 0, 10⟩ : CliOutput).stderr.length
      ≤ (if 3 = 0 then DEFAULT_MAX_OUTPUT_BYTES else 3) :=
  run_cli_command_output_bounded
    ⟨.ok (), some [[1, 2, 3, 4, 5]], some [[9, 9], [9, 9, 9, 9]],
      .completed (some 0), 10⟩ 1 3
    ⟨[1, 2, 3], [9, 9, 9], 0, 10⟩ rfl

/-- C4 counterexample: the drainers' read loop does NOT continue reading and
discarding after the cap.  With cap 4 and a stream delivering the reads
`[1,2,3,4,5]` then `[6,7]`, the code's loop (`readCappedGo`, the shared body
of `read_stdout_capped`/`read_stderr_capped`) performs exactly 1 read and
stops; the loop the spec describes (`readDiscardSpecGo`: keep reading and
discarding until end-of-stream) would perform 3 reads.  The second read and
the end-of-stream read never happen. -/
theorem read_capped_stops_at_cap_counterexample :
    readCappedGo [] 4 [[1, 2, 3, 4, 5], [6, 7]] = ([1, 2, 3, 4], 1)
    ∧ readDiscardSpecGo [] 4 [[1, 2, 3, 4, 5], [6, 7]] = ([1, 2, 3, 4], 3)
    ∧ (1 : Nat) ≠ 3 :=
  ⟨by decide, by decide, by decide⟩

/-- C4 (amended): each background drainer reads until end-of-stream or until
its buffer reaches the `max_bytes` cap, whichever comes first; once the cap
is reached it breaks out of the read loop immediately and performs no
further reads — stream content past that point is never read (and hence not
read-and-discarded).  Formally: if the cap is reached within the reads
`pre`, the loop's outcome (buffer and read count) on `pre ++ rest` is the
same as on `pre` alone, for any further content `rest`. -/
theorem readCappedGo_cons (buf : List Nat) (limit : Nat) (c : List Nat)
    (t : List (List Nat)) :
    readCappedGo buf limit (c :: t) =
      (if limit ≤ (buf ++ c.take (limit - buf.length)).length
       then (buf ++ c.take (limit - buf.length), 1)
       else ((readCappedGo (buf ++ c.take (limit - buf.length)) limit t).1,
             (readCappedGo (buf ++ c.take (limit - buf.length)) limit t).2 + 1)) :=
  rfl

theorem readCappedGo_no_reads_after_cap (limit : Nat) :
    ∀ (pre rest : List (List Nat)) (buf : List Nat),
      limit ≤ (readCappedGo buf limit pre).1.length →
      readCappedGo buf limit (pre ++ rest) = readCappedGo buf limit pre := by
  intro pre
  induction pre with
  | nil =>
    intro rest buf h
    simp only [readCappedGo] at h
    cases rest with
    | nil => rfl
    | cons c t =>
      have hz : limit - buf.length = 0 := Nat.sub_eq_zero_of_le h
      rw [List.nil_append, readCappedGo_cons, hz]
      simp only [List.take_zero, List.append_nil]
      rw [if_pos h]
      rfl
  | cons c t ih =>
    intro rest buf h
    rw [List.cons_append, readCappedGo_cons, readCappedGo_cons]
    rw [readCappedGo_cons] at h
    by_cases hc : limit ≤ (buf ++ c.take (limit - buf.length)).length
    · rw [if_pos hc, if_pos hc]
    · rw [if_neg hc, if_neg hc]
      rw [if_neg hc] at h
      simp only at h
      rw [ih rest _ h]

/-- Witness for C4 (amended): with cap 4, the reads `[[1,2,3,4,5]]` reach
the cap, so appending the further read `[[6,7]]` changes nothing. -/
theorem readCappedGo_no_reads_after_cap_witness :
    readCappedGo [] 4 ([[1, 2, 3, 4, 5]] ++ [[6, 7]])
      = readCappedGo [] 4 [[1, 2, 3, 4, 5]] :=
  readCappedGo_no_reads_after_cap 4 [[1, 2, 3, 4, 5]] [[6, 7]] [] (by decide)

/-! ### Substring and prompt helper lemmas -/

theorem isPrefixB_self : ∀ (l : List Char), isPrefixB l l = true := by
  intro l
  induction l with
  | nil => rfl
  | cons a as ih => simp [isPrefixB, ih]

theorem hasInfixB_append_self (pat : List Char) :
    ∀ (pre : List Char), hasInfixB pat (pre ++ pat) = true := by
  intro pre
  induction pre with
  | nil =>
    cases pat with
    | nil => rfl
    | cons c cs => simp [hasInfixB, isPrefixB_self]
  | cons c cs ih => simp [hasInfixB, ih]

theorem strContainsSub_append_right (a op : String) :
    strContainsSub (a ++ op) op = true := by
  unfold strContainsSub
  rw [String.data_append]
  exact hasInfixB_append_self op.data a.data

theorem build_user_prompt_eq_filter (messages : List ChatMessage) :
    build_user_prompt messages
      = build_prompt (messages.filter
          (fun m => decide (m.role ≠ MessageRole.System))) := by
  simp only [build_user_prompt, build_prompt]
  congr 1
  apply List.map_congr_left
  intro m hm
  have hrole : m.role ≠ MessageRole.System := by
    simpa using (List.mem_filter.mp hm).2
  cases h : m.role with
  | System => exact absurd h hrole
  | User => rfl
  | Assistant => rfl

/-- C6: parsing the documented Claude Code success body yields content
`"Hello world"`, usage `{10, 5, 15}`, finish reason `"stop"` and session id
`"abc123"`, which the completion path caches under the request's model key
whenever the request supplied a model; the `is_error:true` body with result
`"rate limited"` yields an `ExternalService` error whose message mentions
`"rate limited"`. -/
theorem claude_parse_response_scenarios :
    ClaudeCodeRunner.parse_response claudeHelloBody
      = .ok (⟨"Hello world", "claude-code", some ⟨10, 5, 15⟩, some "stop"⟩,
             some "abc123")
    ∧ (∀ (sessions : List (String × String)) (m : String),
        sessionLookup
            (cacheSessionAfterParse sessions (some m) (some "abc123")) m
          = some "abc123")
    ∧ ClaudeCodeRunner.parse_response claudeRateLimitedBody
      = .error ⟨.ExternalService, "claude-code: rate limited"⟩
    ∧ strContainsSub "claude-code: rate limited" "rate limited" = true := by
  refine ⟨rfl, ?_, rfl, by decide⟩
  intro sessions m
  simp [cacheSessionAfterParse, sessionInsert, sessionLookup]

/-- C8 counterexample: for the Cursor Agent adapter the prompt is NOT
combined assembly over the full message sequence.  For the request with
messages `[system "Be concise", user "Hi"]`, both `complete` and
`complete_stream` hand the CLI the prompt `"[user]\nHi"`: the system
message's content does not appear in it (and there is no system-prompt
flag to carry it either). -/
theorem cursor_agent_system_dropped_counterexample :
    CursorAgentRunner.completePrompt
        ⟨[⟨.System, "Be concise"⟩, ⟨.User, "Hi"⟩], none, none, none, false⟩
      = "[user]\nHi"
    ∧ CursorAgentRunner.completeStreamPrompt
        ⟨[⟨.System, "Be concise"⟩, ⟨.User, "Hi"⟩], none, none, none, false⟩
      = "[user]\nHi"
    ∧ strContainsSub "[user]\nHi" "Be concise" = false :=
  ⟨rfl, rfl, by decide⟩

/-- C8 (amended): for the Cursor Agent adapter, both `Complete` and
`CompleteStream` deliver a prompt built by `build_user_prompt`, which is
role-labelled combined assembly over the NON-system messages only — a
request's system-message content is omitted from the prompt (no system
prompt flag exists for this CLI). -/
theorem cursor_agent_prompt_non_system_only (request : ChatRequest) :
    CursorAgentRunner.completePrompt request
      = build_prompt (request.messages.filter
          (fun m => decide (m.role ≠ MessageRole.System)))
    ∧ CursorAgentRunner.completeStreamPrompt request
      = build_prompt (request.messages.filter
          (fun m => decide (m.role ≠ MessageRole.System))) :=
  ⟨build_user_prompt_eq_filter request.messages,
   build_user_prompt_eq_filter request.messages⟩

/-! ### Multiplex lemmas -/

theorem dispatch_single_provider (p : CliRunnerType) (e : DispatchEnv) :
    (dispatch_single p e).provider = p.display := by
  unfold dispatch_single
  cases e.get_runner with
  | error er => rfl
  | ok u =>
    cases e.complete with
    | ok r => rfl
    | error er => rfl

theorem enumFrom_dispatch_provider (env : Nat → DispatchEnv) :
    ∀ (l : List CliRunnerType) (n : Nat),
      (List.enumFrom n l).map
          (fun ip => (dispatch_single ip.2 (env ip.1)).provider)
        = l.map CliRunnerType.display := by
  intro l
  induction l with
  | nil => intro n; rfl
  | cons p t ih =>
    intro n
    simp only [List.enumFrom, List.map]
    rw [ih (n + 1), dispatch_single_provider]

/-- C5: a multiplex execution over the provider list `P` yields exactly
`|P|` outcomes; the outcomes' provider fields are, in order, exactly the
display names of `P` (input order regardless of completion order); and the
summary equals `"{ok} succeeded, {err} failed out of {total} providers"`
with `ok` the number of outcomes with content populated, `err = total - ok`
and `total = |P|`. -/
theorem multiplex_order_count_summary (providers : List CliRunnerType)
    (env : Nat → DispatchEnv) :
    (MultiplexEngine.execute providers env).responses.length = providers.length
    ∧ (MultiplexEngine.execute providers env).responses.map
          (fun r => r.provider)
        = providers.map CliRunnerType.display
    ∧ (MultiplexEngine.execute providers env).summary
        = toString (((MultiplexEngine.execute providers env).responses.filter
              (fun r => r.content.isSome)).length)
          ++ " succeeded, "
          ++ toString (providers.length
              - ((MultiplexEngine.execute providers env).responses.filter
                  (fun r => r.content.isSome)).length)
          ++ " failed out of " ++ toString providers.length ++ " providers" := by
  have hlen :
      (MultiplexEngine.execute providers env).responses.length
        = providers.length := by
    simp [MultiplexEngine.execute, List.enum_length]
  refine ⟨hlen, ?_, ?_⟩
  · simp only [MultiplexEngine.execute, List.map_map]
    exact enumFrom_dispatch_provider env providers 0
  · show build_summary (MultiplexEngine.execute providers env).responses = _
    simp only [build_summary, hlen]

/-- C7 counterexample: when no override is supplied and the `PATH` search
fails, `resolve_binary` does NOT fail with kind `BinaryNotFound` — it
builds its error with `RunnerError::internal` (src/src/discovery.rs lines
81-83), so the kind at this concrete miss is `Internal`. -/
theorem resolve_binary_path_miss_kind_counterexample :
    resolve_binary "claude" none (fun _ => false)
        (.error "cannot find binary path")
      = .error ⟨.Internal,
          "Binary 'claude' not found on PATH: cannot find binary path"⟩
    ∧ ErrorKind.Internal ≠ ErrorKind.BinaryNotFound :=
  ⟨rfl, by decide⟩

/-- C7 (amended): for every name, if `env_override` is supplied and the
path it names does not exist, `resolve_binary` fails with an error of kind
`Internal` citing the override; if no override is supplied and the `PATH`
search does not find the binary, it also fails with kind `Internal` (not
`BinaryNotFound`), with a message naming the binary and the `PATH`
failure. -/
theorem resolve_binary_failure_kinds
    (name op e : String) (path_exists : String → Bool)
    (which_result : Except String String)
    (hmiss : path_exists op = false) :
    (resolve_binary name (some op) path_exists which_result
        = .error (RunnerError.internal
            ("Environment override points to non-existent path: " ++ op))
      ∧ (RunnerError.internal
            ("Environment override points to non-existent path: " ++ op)).kind
          = .Internal
      ∧ strContainsSub
            ("Environment override points to non-existent path: " ++ op) op
          = true)
    ∧ (resolve_binary name none path_exists (.error e)
        = .error (RunnerError.internal
            ("Binary '" ++ name ++ "' not found on PATH: " ++ e))
      ∧ (RunnerError.internal
            ("Binary '" ++ name ++ "' not found on PATH: " ++ e)).kind
          = .Internal) := by
  refine ⟨⟨?_, rfl, strContainsSub_append_right _ op⟩, rfl, rfl⟩
  simp [resolve_binary, hmiss]

/-- Witness for C7 (amended) at a concrete name, override and `PATH`
miss. -/
theorem resolve_binary_failure_kinds_witness :
    (resolve_binary "claude" (some "/opt/claude") (fun _ => false) (.ok "x")
        = .error (RunnerError.internal
            ("Environment override points to non-existent path: "
              ++ "/opt/claude"))
      ∧ (RunnerError.internal
            ("Environment override points to non-existent path: "
              ++ "/opt/claude")).kind = .Internal
      ∧ strContainsSub
            ("Environment override points to non-existent path: "
              ++ "/opt/claude") "/opt/claude" = true)
    ∧ (resolve_binary "claude" none (fun _ => false) (.error "ENOENT")
        = .error (RunnerError.internal
            ("Binary '" ++ "claude" ++ "' not found on PATH: " ++ "ENOENT"))
      ∧ (RunnerError.internal
            ("Binary '" ++ "claude" ++ "' not found on PATH: "
              ++ "ENOENT")).kind = .Internal) :=
  resolve_binary_failure_kinds "claude" "/opt/claude" "ENOENT"
    (fun _ => false) (.ok "x") rfl

/-- C9: whenever a `GuardedStream` is dropped — after any number of polls,
covering normal completion, error, or early cancellation — the owned child
is signalled to terminate (`start_kill`) and the stderr-drain task is
aborted.  `poll_next` never relinquishes the handles, so the drop of a
stream built by `GuardedStream::new` always performs both actions. -/
theorem guarded_stream_drop_kills_child_and_aborts_drain
    (child task polls : Nat) :
    GuardedStream.drop
        (GuardedStream.poll_next^[polls] (GuardedStream.new child task))
      = [.startKill child, .abortTask task] := by
  have h : GuardedStream.poll_next^[polls] (GuardedStream.new child task)
      = GuardedStream.new child task :=
    Function.iterate_fixed rfl polls
  rw [h]
  rfl

/-! ### Model-flag lemmas -/

theorem getD_absorb (o : Option String) (d : String) :
    o.getD (o.getD d) = o.getD d := by
  cases o <;> rfl

/-- C10: for every adapter, the value passed to the CLI's `--model` flag is
`config.model` when the adapter has a configured model override, else the
provider's default-model constant — and it never depends on the request.
For each adapter the first clause exhibits the `--model` pair inside the
spawned command's arguments with exactly that value for an arbitrary
request; the second clause shows that two requests with the same messages
(in particular, requests differing only in their model field) produce the
same command except for the session-resume suffix, whose only use of the
request's model is as the lookup key. -/
theorem model_flag_independent_of_request_model :
    (∀ (config : RunnerConfig) (sessions : List (String × String))
        (r : ChatRequest), ∃ pre post,
        ClaudeCodeRunner.completeArgs config sessions r
          = pre ++ "--model"
              :: config.model.getD ClaudeCodeRunner.DEFAULT_MODEL :: post)
  ∧ (∀ (config : RunnerConfig) (sessions : List (String × String))
        (r1 r2 : ChatRequest), r1.messages = r2.messages → ∃ core,
        ClaudeCodeRunner.completeArgs config sessions r1
            = core ++ resumeArgs sessions r1.model "--resume"
        ∧ ClaudeCodeRunner.completeArgs config sessions r2
            = core ++ resumeArgs sessions r2.model "--resume")
  ∧ (∀ (config : RunnerConfig) (sessions : List (String × String))
        (r : ChatRequest), ∃ pre post,
        CursorAgentRunner.completeArgs config sessions r
          = pre ++ "--model"
              :: config.model.getD CursorAgentRunner.DEFAULT_MODEL :: post)
  ∧ (∀ (config : RunnerConfig) (sessions : List (String × String))
        (r1 r2 : ChatRequest), r1.messages = r2.messages → ∃ core,
        CursorAgentRunner.completeArgs config sessions r1
            = core ++ resumeArgs sessions r1.model "--resume"
        ∧ CursorAgentRunner.completeArgs config sessions r2
            = core ++ resumeArgs sessions r2.model "--resume")
  ∧ (∀ (config : RunnerConfig) (r : ChatRequest), ∃ pre post,
        CopilotRunner.completeArgs config r
          = pre ++ "--model"
              :: config.model.getD CopilotRunner.DEFAULT_MODEL :: post)
  ∧ (∀ (config : RunnerConfig) (r1 r2 : ChatRequest),
        r1.messages = r2.messages →
        CopilotRunner.completeArgs config r1
          = CopilotRunner.completeArgs config r2)
  ∧ (∀ (config : RunnerConfig) (sessions : List (String × String))
        (r : ChatRequest), ∃ pre post,
        OpenCodeRunner.completeArgs config sessions r
          = pre ++ "--model"
              :: config.model.getD OpenCodeRunner.DEFAULT_MODEL :: post)
  ∧ (∀ (config : RunnerConfig) (sessions : List (String × String))
        (r1 r2 : ChatRequest), r1.messages = r2.messages → ∃ core,
        OpenCodeRunner.completeArgs config sessions r1
            = core ++ resumeArgs sessions r1.model "--session"
        ∧ OpenCodeRunner.completeArgs config sessions r2
            = core ++ resumeArgs sessions r2.model "--session") := by
  refine ⟨?_, ?_, ?_, ?_, ?_, ?_, ?_, ?_⟩
  · intro config sessions r
    refine ⟨["-p", build_user_prompt r.messages, "--output-format", "json"]
        ++ (match extract_system_message r.messages with
            | some sys => ["--system-prompt", sys]
            | none => []),
      ["--strict-mcp-config", "\x7b\x7d"] ++ config.extra_args
        ++ resumeArgs sessions r.model "--resume", ?_⟩
    simp [ClaudeCodeRunner.completeArgs, ClaudeCodeRunner.buildArgs,
      ClaudeCodeRunner.default_model, getD_absorb]
  · intro config sessions r1 r2 h
    refine ⟨ClaudeCodeRunner.buildArgs config (build_user_prompt r1.messages)
        (extract_system_message r1.messages) "json", rfl, ?_⟩
    simp [ClaudeCodeRunner.completeArgs, h]
  · intro config sessions r
    refine ⟨["-p", build_user_prompt r.messages, "--output-format", "json",
        "--approve-mcps"],
      config.extra_args ++ resumeArgs sessions r.model "--resume", ?_⟩
    simp [CursorAgentRunner.completeArgs, CursorAgentRunner.buildArgs,
      CursorAgentRunner.default_model, getD_absorb]
  · intro config sessions r1 r2 h
    refine ⟨CursorAgentRunner.buildArgs config
        (build_user_prompt r1.messages) "json", rfl, ?_⟩
    simp [CursorAgentRunner.completeArgs, h]
  · intro config r
    refine ⟨["-p", build_prompt r.messages],
      ["--allow-all-tools", "--disable-builtin-mcps",
        "--no-custom-instructions", "--no-ask-user", "--no-color"]
        ++ ["-s"] ++ config.extra_args, ?_⟩
    simp [CopilotRunner.completeArgs, CopilotRunner.buildArgs,
      CopilotRunner.default_model, getD_absorb]
  · intro config r1 r2 h
    simp [CopilotRunner.completeArgs, h]
  · intro config sessions r
    refine ⟨["run", build_prompt r.messages, "--format", "json"],
      config.extra_args ++ resumeArgs sessions r.model "--session", ?_⟩
    simp [OpenCodeRunner.completeArgs, OpenCodeRunner.buildArgs,
      OpenCodeRunner.default_model, getD_absorb]
  · intro config sessions r1 r2 h
    refine ⟨OpenCodeRunner.buildArgs config (build_prompt r1.messages),
      rfl, ?_⟩
    simp [OpenCodeRunner.completeArgs, h]

/-- Witness for C10: concrete config with a configured model override, a
cached session, and two requests that differ only in their model field. -/
theorem model_flag_independent_of_request_model_witness :
    (∃ pre post,
      ClaudeCodeRunner.completeArgs
          ⟨"/usr/bin/claude", some "sonnet", 120, [], [], none⟩
          [("m1", "sid-1")]
          ⟨[⟨.User, "Hi"⟩], some "m1", none, none, false⟩
        = pre ++ "--model"
            :: (some "sonnet").getD ClaudeCodeRunner.DEFAULT_MODEL :: post)
    ∧ (∃ core,
      ClaudeCodeRunner.completeArgs
          ⟨"/usr/bin/claude", some "sonnet", 120, [], [], none⟩
          [("m1", "sid-1")]
          ⟨[⟨.User, "Hi"⟩], some "m1", none, none, false⟩
        = core ++ resumeArgs [("m1", "sid-1")] (some "m1") "--resume"
      ∧ ClaudeCodeRunner.completeArgs
          ⟨"/usr/bin/claude", some "sonnet", 120, [], [], none⟩
          [("m1", "sid-1")]
          ⟨[⟨.User, "Hi"⟩], none, none, none, false⟩
        = core ++ resumeArgs [("m1", "sid-1")] none "--resume") :=
  ⟨model_flag_independent_of_request_model.1
      ⟨"/usr/bin/claude", some "sonnet", 120, [], [], none⟩
      [("m1", "sid-1")] ⟨[⟨.User, "Hi"⟩], some "m1", none, none, false⟩,
   model_flag_independent_of_request_model.2.1
      ⟨"/usr/bin/claude", some "sonnet", 120, [], [], none⟩
      [("m1", "sid-1")]
      ⟨[⟨.User, "Hi"⟩], some "m1", none, none, false⟩
      ⟨[⟨.User, "Hi"⟩], none, none, none, false⟩ rfl⟩

end Embacle
